import Mathlib

/-!
Verification development for the RANK2-AUTO bulk-upload tool.

Shallow embedding of the repository's core logic:
* `src/utils/dataProcessor.ts` — `parseCSV`, `chunkArray`;
* `src/services/automationMock.ts` — `simulateLogin`, `simulateNavigation`,
  `simulateUploadBatch` (the simulated phase executor);
* `src/App.tsx` — `runAutomation`, the batch-job orchestrator
  (browser-simulation branch, i.e. `window.electronAPI` absent).

Modelling conventions:
* JavaScript numbers used as indices/sizes are modelled as `Int`
  (non-integer batch sizes are outside the model); record-cell numbers are
  modelled as `JSNum`, an exact (unreduced) decimal fraction.  `NaN` and
  the infinities are modelled by `Option`
  (`none`): the only place this matters is `ToNumber` on a cell text, where
  a non-finite result is kept as a string — truthiness of the stored value
  is unchanged, which is all any downstream code observes.
* The non-deterministic inputs of a run (the shared cancellation flag read
  at each checkpoint, and `Math.random() < 0.01` per upload) are oracles
  `Nat → Bool` indexed by read/batch number.
* `setTimeout` delays are irrelevant to the sequential semantics and are
  dropped; log-entry random ids and wall-clock timestamps are dropped
  (the log is kept as an append-only ordered list).
* The JS loop `for (let i = 0; i < a.length; i += size)` in `chunkArray`
  does not terminate when `size ≤ 0` and the array is non-empty; it is
  embedded with an iteration budget (`fuel`), `none` meaning the loop has
  not returned within that budget.
-/

/-! ### Data model (src/types.ts) -/

/-- Job state enumeration from `src/types.ts` (`JobStatus`). -/
inductive JobStatus where
  | IDLE
  | RUNNING
  | COMPLETED
  | FAILED
  | PAUSED
deriving DecidableEq

/-- Log severity enumeration from `src/types.ts` (`LogLevel`). -/
inductive LogLevel where
  | INFO
  | SUCCESS
  | WARNING
  | ERROR
  | SYSTEM
deriving DecidableEq

/-- Fault-injection scenario from `src/types.ts` (`SimulationScenario`). -/
inductive SimulationScenario where
  | SUCCESS
  | ERROR_VPN
  | ERROR_AUTH
  | ERROR_UPLOAD
deriving DecidableEq

/-- A structured log event (`LogEntry` in `src/types.ts`).  The random `id`
and the wall-clock `timestamp` are not modelled; insertion order is kept by
the position in the log list. -/
structure LogEntry where
  level : LogLevel
  message : String
  step : String
  hasScreenshot : Bool
deriving DecidableEq

/-- Aggregate statistics (`JobStats` in `src/types.ts`). -/
structure JobStats where
  totalRecords : Nat
  processedRecords : Nat
  successCount : Nat
  errorCount : Nat
  batchesTotal : Nat
  batchesCompleted : Nat
deriving DecidableEq

/-- An exact finite JS number as an unreduced fraction `num / den` with
`den` a power of ten (positive by construction).  The representation is
not canonical, but no claim compares numeric cell values other than the
zero test, which is exact (`num = 0`). -/
structure JSNum where
  num : Int
  den : Nat
deriving DecidableEq

/-- A cell value of a parsed record: `parseCSV` stores either the trimmed
string or, when it parses as a finite JS number, that number. -/
inductive CellVal where
  | str (s : String)
  | num (q : JSNum)
deriving DecidableEq

/-- A parsed record (`CatalogItem`): a JS object modelled as an association
list field-name to value, later assignments overwriting earlier ones. -/
abbrev CatalogItem := List (String × CellVal)

/-! ### JavaScript string and number helpers -/

/-- Decides whether `needle` is a prefix of `hay` (character lists). -/
def matchesFront : List Char → List Char → Bool
  | [], _ => true
  | _ :: _, [] => false
  | a :: as, b :: bs => a == b && matchesFront as bs

/-- Decides whether `needle` occurs contiguously inside `hay`. -/
def occursIn (needle : List Char) : List Char → Bool
  | [] => needle.isEmpty
  | b :: bs => matchesFront needle (b :: bs) || occursIn needle bs

/-- Model of JavaScript `s.includes(sub)`. -/
def jsIncludes (s sub : String) : Bool :=
  occursIn sub.data s.data

/-- Drops leading whitespace characters. -/
def dropLeadingWs : List Char → List Char
  | [] => []
  | c :: cs => if c.isWhitespace then dropLeadingWs cs else c :: cs

/-- Model of JavaScript `s.trim()` (whitespace stripped from both ends),
implemented structurally on the character list. -/
def jsTrim (s : String) : String :=
  ⟨((dropLeadingWs ((dropLeadingWs s.data).reverse)).reverse)⟩

/-- Splitting on a one-character separator, keeping empty parts: the
semantics of JS `s.split(sep)` for the single-character separators used
by the code (`'\n'` and `','`). -/
def splitOnCharAux (sep : Char) : List Char → List Char → List String
  | [], acc => [⟨acc.reverse⟩]
  | c :: cs, acc =>
    if c = sep then ⟨acc.reverse⟩ :: splitOnCharAux sep cs []
    else splitOnCharAux sep cs (c :: acc)

/-- Model of JavaScript `s.split(sep)` for a one-character separator. -/
def jsSplitOnChar (s : String) (sep : Char) : List String :=
  splitOnCharAux sep s.data []

/-- ASCII lower-casing of one character. -/
def lowerChar (c : Char) : Char :=
  if 'A' ≤ c ∧ c ≤ 'Z' then Char.ofNat (c.toNat + 32) else c

/-- Model of JavaScript `s.toLowerCase()` (ASCII range; the blocked words
compared against it are ASCII). -/
def jsToLower (s : String) : String :=
  ⟨s.data.map lowerChar⟩

/-- Value of a decimal digit character, `none` otherwise. -/
def decDigitVal (c : Char) : Option Nat :=
  if '0' ≤ c ∧ c ≤ '9' then some (c.toNat - 48) else none

/-- Value of a hexadecimal digit character, `none` otherwise. -/
def hexDigitVal (c : Char) : Option Nat :=
  if '0' ≤ c ∧ c ≤ '9' then some (c.toNat - 48)
  else if 'a' ≤ c ∧ c ≤ 'f' then some (c.toNat - 87)
  else if 'A' ≤ c ∧ c ≤ 'F' then some (c.toNat - 55)
  else none

/-- Value of an octal digit character, `none` otherwise. -/
def octDigitVal (c : Char) : Option Nat :=
  if '0' ≤ c ∧ c ≤ '7' then some (c.toNat - 48) else none

/-- Value of a binary digit character, `none` otherwise. -/
def binDigitVal (c : Char) : Option Nat :=
  if c = '0' ∨ c = '1' then some (c.toNat - 48) else none

/-- Reads a non-empty digit string in the given base; `none` on an empty
string or a character outside the digit set. -/
def parseNatBase (base : Nat) (valOf : Char → Option Nat) (cs : List Char) :
    Option Nat :=
  if cs.isEmpty then none
  else
    cs.foldl
      (fun acc c =>
        match acc, valOf c with
        | some a, some d => some (a * base + d)
        | _, _ => none)
      (some 0)

/-- Reads the signed decimal exponent of a numeric literal. -/
def parseExp : List Char → Option Int
  | '+' :: ds => (parseNatBase 10 decDigitVal ds).map Int.ofNat
  | '-' :: ds => (parseNatBase 10 decDigitVal ds).map (fun n => -(n : Int))
  | ds => (parseNatBase 10 decDigitVal ds).map Int.ofNat

/-- Reads an unsigned decimal literal `digits [. digits] [e sign digits]`
as an exact fraction. -/
def parseUnsignedDec (cs : List Char) : Option JSNum :=
  let mantE := cs.span (fun c => !(c == 'e' || c == 'E'))
  let mant : Option JSNum :=
    let parts := mantE.1.span (fun c => !(c == '.'))
    match parts.2 with
    | [] => (parseNatBase 10 decDigitVal parts.1).map (fun n => JSNum.mk n 1)
    | _ :: fd =>
      if parts.1.isEmpty && fd.isEmpty then none
      else
        let ipv := if parts.1.isEmpty then some 0
          else parseNatBase 10 decDigitVal parts.1
        let fdv := if fd.isEmpty then some 0
          else parseNatBase 10 decDigitVal fd
        match ipv, fdv with
        | some a, some b =>
          some (JSNum.mk ((a : Int) * ((10 ^ fd.length : Nat) : Int) + (b : Int))
            (10 ^ fd.length))
        | _, _ => none
  match mant, mantE.2 with
  | some m, [] => some m
  | some m, _ :: es =>
    (parseExp es).map
      (fun e =>
        if 0 ≤ e then JSNum.mk (m.num * ((10 ^ e.toNat : Nat) : Int)) m.den
        else JSNum.mk m.num (m.den * 10 ^ (-e).toNat))
  | none, _ => none

/-- Model of JavaScript `Number(s)` on an already-trimmed string: `some q`
when the result is a finite number, `none` when it is `NaN`.  The
non-finite values `±Infinity` (the literal `Infinity` or an overflowing
exponent) are also mapped to `none`; the only consumer guards with
`isNaN`, and for the claims at hand only truthiness of the stored value
matters, which agrees (a kept `"Infinity"` string and the number
`Infinity` are both truthy). -/
def jsStringToNumber (s : String) : Option JSNum :=
  match s.data with
  | [] => some (JSNum.mk 0 1)
  | '0' :: 'x' :: ds => (parseNatBase 16 hexDigitVal ds).map (fun n => JSNum.mk n 1)
  | '0' :: 'X' :: ds => (parseNatBase 16 hexDigitVal ds).map (fun n => JSNum.mk n 1)
  | '0' :: 'b' :: ds => (parseNatBase 2 binDigitVal ds).map (fun n => JSNum.mk n 1)
  | '0' :: 'B' :: ds => (parseNatBase 2 binDigitVal ds).map (fun n => JSNum.mk n 1)
  | '0' :: 'o' :: ds => (parseNatBase 8 octDigitVal ds).map (fun n => JSNum.mk n 1)
  | '0' :: 'O' :: ds => (parseNatBase 8 octDigitVal ds).map (fun n => JSNum.mk n 1)
  | '+' :: cs => parseUnsignedDec cs
  | '-' :: cs => (parseUnsignedDec cs).map (fun q => JSNum.mk (-q.num) q.den)
  | cs => parseUnsignedDec cs

/-- JS truthiness of a stored cell value: the empty string and the number
zero are falsy, everything else stored by `parseCSV` is truthy. -/
def jsFalsy : CellVal → Bool
  | .str s => s == ""
  | .num q => q.num == 0

/-- JS truthiness test extended to a missing property (`undefined` is
falsy). -/
def jsFalsyOpt : Option CellVal → Bool
  | none => true
  | some v => jsFalsy v

/-! ### parseCSV (src/utils/dataProcessor.ts, lines 3-35) -/

/-- JS object property read. -/
def objGet (item : CatalogItem) (k : String) : Option CellVal :=
  match item with
  | [] => none
  | (k', v) :: t => if k' = k then some v else objGet t k

/-- JS object property write: overwrites an existing binding in place,
otherwise appends. -/
def objSet (item : CatalogItem) (k : String) (v : CellVal) : CatalogItem :=
  match item with
  | [] => [(k, v)]
  | (k', v') :: t => if k' = k then (k, v) :: t else (k', v') :: objSet t k v

/-- The `headers.forEach((header, index) => ...)` body of `parseCSV`: for
each header index, trims the cell text and stores it, converted to a
number when `!isNaN(Number(value)) && value !== ''`. -/
def assignCells (headers cells : List String) : CatalogItem :=
  (List.range headers.length).foldl
    (fun item idx =>
      let header := headers.getD idx ""
      let value := jsTrim (cells.getD idx "")
      let v : CellVal :=
        match jsStringToNumber value with
        | some q => if value = "" then CellVal.str value else CellVal.num q
        | none => CellVal.str value
      objSet item header v)
    []

/-- The `item.id = item.id || row-i` fix-up of `parseCSV`: a missing or
falsy `id` is replaced by the synthesized `row-` identifier, a truthy one
is written back unchanged. -/
def fixId (item : CatalogItem) (i : Nat) : CatalogItem :=
  match objGet item "id" with
  | some v =>
    if jsFalsy v then objSet item "id" (CellVal.str ("row-" ++ toString i))
    else objSet item "id" v
  | none => objSet item "id" (CellVal.str ("row-" ++ toString i))

/-- The `for (let i = 1; i < lines.length; i++)` loop of `parseCSV`:
`i` is the index of the current line in `lines`; a line whose field count
differs from the header count is skipped. -/
def parseRows (headers : List String) : Nat → List String → List CatalogItem
  | _, [] => []
  | i, line :: rest =>
    let currentLine := jsSplitOnChar line ','
    if currentLine.length ≠ headers.length then parseRows headers (i + 1) rest
    else fixId (assignCells headers currentLine) i :: parseRows headers (i + 1) rest

/-- Model of `parseCSV` (src/utils/dataProcessor.ts lines 3-35). -/
def parseCSV (csvText : String) : List CatalogItem :=
  let lines := jsSplitOnChar (jsTrim csvText) '\n'
  if lines.length < 2 then []
  else
    let headers := (jsSplitOnChar (lines.headD "") ',').map jsTrim
    parseRows headers 1 lines.tail

/-- The header list `parseCSV` computes for an input, named for use in
statements. -/
def csvHeaders (csvText : String) : List String :=
  (jsSplitOnChar ((jsSplitOnChar (jsTrim csvText) '\n').headD "") ',').map jsTrim

/-! ### chunkArray (src/utils/dataProcessor.ts, lines 37-43) -/

/-- JS `Array.prototype.slice` index clamping: a negative index counts
from the end (clamped at 0), a non-negative one is clamped at the
length. -/
def jsSliceIdx (len : Nat) (x : Int) : Nat :=
  if x < 0 then ((len : Int) + x).toNat else min x.toNat len

/-- Model of JS `array.slice(a, b)`. -/
def jsSlice (l : List α) (a b : Int) : List α :=
  (l.take (jsSliceIdx l.length b)).drop (jsSliceIdx l.length a)

/-- The loop `for (let i = 0; i < array.length; i += size)` of
`chunkArray`, with an explicit iteration budget: `none` means the loop has
not returned within `fuel` iterations (for `size ≤ 0` and a non-empty
array it never returns, see `chunkArray_no_validation`). -/
def chunkArrayLoop : Nat → List α → Int → Int → List (List α) →
    Option (List (List α))
  | 0, _, _, _, _ => none
  | fuel + 1, array, size, i, acc =>
    if i < (array.length : Int) then
      chunkArrayLoop fuel array size (i + size) (acc ++ [jsSlice array i (i + size)])
    else some acc

/-- Model of `chunkArray` (src/utils/dataProcessor.ts lines 37-43): the
loop needs one iteration per batch plus the final test, so a budget of
`array.length + 1` is exact whenever `size ≥ 1`. -/
def chunkArray (array : List α) (size : Int) : Option (List (List α)) :=
  chunkArrayLoop (array.length + 1) array size 0 []

/-! ### Simulated phase executor (src/services/automationMock.ts) -/

/-- The credential screen of `simulateLogin` (line 27): a password is
rejected when shorter than 4 characters or containing one of the four
blocked words case-insensitively. -/
def isInvalidPassword (password : String) : Bool :=
  password.length < 4 ||
    (["wrong", "error", "fail", "invalid"].any
      (fun s => jsIncludes (jsToLower password) s))

/-- Model of `simulateLogin` (src/services/automationMock.ts lines 6-37):
returns the log events it emits through `addLog`, in order, and the
success boolean. -/
def simulateLogin (username password : String) (scenario : SimulationScenario) :
    List LogEntry × Bool :=
  let logs := [LogEntry.mk .INFO
    "Navigating to https://withpassion.decathlon.net/rank2/control/login"
    "LOGIN" false]
  if scenario = .ERROR_VPN then
    (logs ++
      [LogEntry.mk .ERROR "Network Error: Host unreachable." "NET" false,
       LogEntry.mk .ERROR
         "CRITICAL: Corporate VPN connection not detected. Please connect to GlobalProtect and retry."
         "SYS" false],
     false)
  else
    let logs := logs ++
      [LogEntry.mk .INFO ("Checking credentials for user: " ++ username) "AUTH" false]
    if scenario = .ERROR_AUTH ∨ jsIncludes username "error" = true ∨
        isInvalidPassword password = true then
      (logs ++
        [LogEntry.mk .ERROR
           "Authentication failed: Invalid credentials or Account Locked."
           "AUTH" true,
         LogEntry.mk .SYSTEM
           "(Simulation Tip: Avoid using passwords containing \"wrong\" or \"error\" for the Happy Path)"
           "AUTH" false],
       false)
    else
      (logs ++ [LogEntry.mk .SUCCESS "Login successful. Dashboard loaded." "AUTH" true],
       true)

/-- Model of `simulateNavigation` (src/services/automationMock.ts lines
39-49): it only emits events and always completes. -/
def simulateNavigation : List LogEntry :=
  [LogEntry.mk .INFO "Accessing Main Dashboard..." "NAV" false,
   LogEntry.mk .INFO "Clicking 'Rank 2' tab" "NAV" false,
   LogEntry.mk .INFO "Clicking 'Catalog' sub-menu" "NAV" false,
   LogEntry.mk .SUCCESS "Catalog Control Panel loaded. Ready for input." "NAV" false]

/-- Model of `simulateUploadBatch` (src/services/automationMock.ts lines
51-83).  `randFail` is the oracle for `Math.random() < 0.01` on line 73. -/
def simulateUploadBatch (batchId recordCount : Nat)
    (scenario : SimulationScenario) (randFail : Bool) : List LogEntry × Bool :=
  let step := "BATCH-" ++ toString batchId
  let logs :=
    [LogEntry.mk .INFO
       ("Preparing Batch #" ++ toString batchId ++ " (" ++ toString recordCount
         ++ " records)...") step false,
     LogEntry.mk .SYSTEM "Converting JSON to .xlsx format for upload" step false,
     LogEntry.mk .SYSTEM "Locating 'Choose File' input field..." step false,
     LogEntry.mk .INFO ("Selecting file: batch_" ++ toString batchId ++ ".xlsx")
       step false,
     LogEntry.mk .INFO "Clicking 'UPDATE' button to initiate upload..." step false]
  if scenario = .ERROR_UPLOAD ∨ randFail = true then
    (logs ++
      [LogEntry.mk .ERROR
         ("Server responded with 500 Internal Error on Batch #" ++ toString batchId)
         step false,
       LogEntry.mk .WARNING
         ("Retrying Batch #" ++ toString batchId ++ " (Attempt 1/3)...") step false,
       LogEntry.mk .ERROR
         "Retry failed. Skipping batch to maintain workflow stability." step false],
     false)
  else
    (logs ++
      [LogEntry.mk .SUCCESS
         ("Batch #" ++ toString batchId ++ " upload confirmed. Status: Pending Processing")
         step false],
     true)

/-! ### Job orchestrator (src/App.tsx, runAutomation, lines 150-250) -/

/-- The observable state a run mutates, plus instrumentation needed to
state the claims: every `setStats` call is also recorded in
`statsHistory`, every `setStatus` call in `statusHistory`, each
`simulateUploadBatch` invocation bumps `uploadCalls`, and `alert` calls
are collected in `alerts`. -/
structure RunState where
  status : JobStatus
  logs : List LogEntry
  stats : JobStats
  statsHistory : List JobStats
  statusHistory : List JobStatus
  uploadCalls : Nat
  alerts : List String
deriving DecidableEq

/-- Model of `addLog`: appends one event to the log. -/
def pushLog (st : RunState) (e : LogEntry) : RunState :=
  { st with logs := st.logs ++ [e] }

/-- Model of `setStatus`, recording the transition. -/
def setStatusR (st : RunState) (s : JobStatus) : RunState :=
  { st with status := s, statusHistory := st.statusHistory ++ [s] }

/-- Model of `setStats`, recording the snapshot. -/
def setStatsR (st : RunState) (s : JobStats) : RunState :=
  { st with stats := s, statsHistory := st.statsHistory ++ [s] }

/-- One iteration body of the batch upload loop (src/App.tsx lines
231-240): invoke `simulateUploadBatch` with the 1-based batch id and the
batch's record count, append its events, bump the upload-call counter,
and apply the per-batch stats update (`pt` is the new running
`processedTotal`). -/
def batchStep (scenario : SimulationScenario) (randFail : Nat → Bool)
    (i pt : Nat) (b : List CatalogItem) (st : RunState) : RunState :=
  let up := simulateUploadBatch (i + 1) b.length scenario (randFail i)
  let st1 : RunState :=
    { st with logs := st.logs ++ up.1, uploadCalls := st.uploadCalls + 1 }
  setStatsR st1
    { totalRecords := st1.stats.totalRecords
      processedRecords := pt
      successCount :=
        if up.2 then st1.stats.successCount + b.length else st1.stats.successCount
      errorCount :=
        if up.2 then st1.stats.errorCount else st1.stats.errorCount + b.length
      batchesTotal := st1.stats.batchesTotal
      batchesCompleted := i + 1 }

/-- The inter-batch wait notice (src/App.tsx lines 242-245): logged only
when the batch just processed is not the last one. -/
def maybeWaitLog (st : RunState) (rest : List (List CatalogItem)) : RunState :=
  if rest.isEmpty then st
  else pushLog st
    (LogEntry.mk .SYSTEM "Waiting 2s before next batch to ensure stability..." "WAIT" false)

/-- The batch upload loop of `runAutomation` (src/App.tsx lines 224-249),
as a recursion over the remaining batches; `i` is the current 0-based
batch index and `processedTotal` the running `processedTotal` variable.
The cancellation flag is read once at the top of each iteration, as read
number `2 + i` (reads 0 and 1 happen before login and navigation). -/
def batchLoop (scenario : SimulationScenario) (randFail cancelAt : Nat → Bool) :
    Nat → Nat → RunState → List (List CatalogItem) → RunState
  | _, _, st, [] =>
    setStatusR (pushLog st (LogEntry.mk .SUCCESS "All batches processed." "DONE" false))
      .COMPLETED
  | i, processedTotal, st, b :: rest =>
    if cancelAt (2 + i) then
      setStatusR (pushLog st (LogEntry.mk .WARNING "Job stopped by user." "STOP" false))
        .PAUSED
    else
      batchLoop scenario randFail cancelAt (i + 1) (processedTotal + b.length)
        (maybeWaitLog
          (batchStep scenario randFail i (processedTotal + b.length) b st) rest)
        rest

/-- The run state after `setLogs([])`, `setStatus(RUNNING)`, the two INIT
log lines, the stats initialization and the two DATA log lines
(src/App.tsx lines 166-207); `n` is the parsed record count and `bt` the
batch count. -/
def startedState (stats₀ : JobStats) (n bt : Nat) (batchSize : Int) : RunState :=
  let st : RunState :=
    { status := .RUNNING, logs := [], stats := stats₀, statsHistory := [],
      statusHistory := [.RUNNING], uploadCalls := 0, alerts := [] }
  let st := pushLog st
    (LogEntry.mk .SYSTEM "Initializing Automation Agent v1.0 (Simulation Mode)..." "INIT" false)
  let st := pushLog st
    (LogEntry.mk .INFO "Target URL: https://withpassion.decathlon.net/rank2/control/login" "INIT" false)
  let st := setStatsR st
    { totalRecords := n, processedRecords := 0, successCount := 0,
      errorCount := 0, batchesTotal := bt, batchesCompleted := 0 }
  let st := pushLog st
    (LogEntry.mk .SUCCESS
      ("Data parsed successfully. " ++ toString n ++ " records found.")
      "DATA" false)
  pushLog st
    (LogEntry.mk .INFO
      ("Split into " ++ toString bt ++ " batch(es) of max "
        ++ toString batchSize ++ " records.")
      "DATA" false)

/-- The run state entering the batch loop after a successful login and
navigation phase: `startedState` plus the login and navigation events
(src/App.tsx lines 209-219). -/
def loopEntryState (username password : String) (stats₀ : JobStats) (n bt : Nat)
    (batchSize : Int) (scenario : SimulationScenario) : RunState :=
  let st := startedState stats₀ n bt batchSize
  { st with
    logs := st.logs ++ (simulateLogin username password scenario).1
      ++ simulateNavigation }

/-- The part of `runAutomation` after the precondition checks
(src/App.tsx lines 166-250, browser-simulation branch): clears the log,
enters `RUNNING`, splits into batches, initializes stats, then drives
login, navigation and the batch loop.  A `none` result models the
non-terminating `chunkArray` call (`batchSize ≤ 0` with records
present). -/
def runAfterChecks (username password : String) (parsedData : List CatalogItem)
    (batchSize : Int) (scenario : SimulationScenario)
    (cancelAt randFail : Nat → Bool) (stats₀ : JobStats) : Option RunState :=
  (chunkArray parsedData batchSize).map (fun batches =>
    let st := startedState stats₀ parsedData.length batches.length batchSize
    if cancelAt 0 then st
    else
      let login := simulateLogin username password scenario
      let st := { st with logs := st.logs ++ login.1 }
      if login.2 = false then setStatusR st .FAILED
      else if cancelAt 1 then st
      else
        batchLoop scenario randFail cancelAt 0 0
          (loopEntryState username password stats₀ parsedData.length
            batches.length batchSize scenario)
          batches)

/-- Model of `runAutomation` (src/App.tsx lines 150-250), browser
simulation branch (`window.electronAPI` absent).  `status₀`, `logs₀` and
`stats₀` are the UI state before the click; a violated precondition
`alert`s and returns with everything untouched.  JS string truthiness
(`!config.username`, `!password`, `!rawData.trim()`) is emptiness. -/
def runAutomation (status₀ : JobStatus) (logs₀ : List LogEntry) (stats₀ : JobStats)
    (username password rawData : String) (batchSize : Int)
    (scenario : SimulationScenario) (cancelAt randFail : Nat → Bool) :
    Option RunState :=
  if username = "" ∨ password = "" then
    some { status := status₀, logs := logs₀, stats := stats₀, statsHistory := [],
           statusHistory := [], uploadCalls := 0,
           alerts := ["Please enter credentials first."] }
  else if jsTrim rawData = "" then
    some { status := status₀, logs := logs₀, stats := stats₀, statsHistory := [],
           statusHistory := [], uploadCalls := 0,
           alerts := ["Please load or enter data to process."] }
  else
    let parsedData := parseCSV rawData
    if parsedData.length = 0 then
      some { status := status₀, logs := logs₀, stats := stats₀, statsHistory := [],
             statusHistory := [], uploadCalls := 0,
             alerts := ["No valid data found."] }
    else
      runAfterChecks username password parsedData batchSize scenario cancelAt
        randFail stats₀

/-- The batch list a run computes from its raw data and batch size
(`[]` when the split does not terminate); named for use in statements. -/
def theBatches (rawData : String) (batchSize : Int) : List (List CatalogItem) :=
  (chunkArray (parseCSV rawData) batchSize).getD []

/-- Counts Error-severity events of a run result (0 for a diverging run). -/
def countErrorLogs : Option RunState → Nat
  | none => 0
  | some st => (st.logs.filter (fun e => e.level == .ERROR)).length

/-- Whether some log message of a run result contains `needle` as a
substring. -/
def logsContain : Option RunState → String → Bool
  | none, _ => false
  | some st, needle => st.logs.any (fun e => jsIncludes e.message needle)

/-! ### Batching lemmas -/

/-- Structural description of the batches `chunkArray` builds for a
positive size: the first `s` records, then the batches of the rest. -/
def chunksOf (s : Nat) : List α → List (List α)
  | [] => []
  | x :: xs =>
    if s = 0 then []
    else ((x :: xs).take s) :: chunksOf s ((x :: xs).drop s)
termination_by l => l.length
decreasing_by
  rename_i hs
  simp only [List.length_drop, List.length_cons]
  omega

theorem chunksOf_nil (s : Nat) : chunksOf s ([] : List α) = [] := by
  rw [chunksOf]

theorem chunksOf_cons (s : Nat) (hs : s ≠ 0) (l : List α) (hl : l ≠ []) :
    chunksOf s l = l.take s :: chunksOf s (l.drop s) := by
  cases l with
  | nil => exact absurd rfl hl
  | cons x xs => rw [chunksOf, if_neg hs]

theorem chunksOf_flatten_aux (s : Nat) (hs : 0 < s) :
    ∀ (n : Nat) (l : List α), l.length ≤ n → (chunksOf s l).flatten = l := by
  intro n
  induction n with
  | zero =>
    intro l h
    have : l = [] := List.length_eq_zero.mp (Nat.le_zero.mp h)
    subst this
    simp [chunksOf_nil]
  | succ n ih =>
    intro l h
    by_cases hl : l = []
    · subst hl; simp [chunksOf_nil]
    · rw [chunksOf_cons s (Nat.pos_iff_ne_zero.mp hs) l hl]
      have hlen : 0 < l.length := List.length_pos.mpr hl
      rw [List.flatten_cons,
        ih (l.drop s) (by simp only [List.length_drop]; omega)]
      exact List.take_append_drop s l

theorem chunksOf_flatten (s : Nat) (hs : 0 < s) (l : List α) :
    (chunksOf s l).flatten = l :=
  chunksOf_flatten_aux s hs l.length l le_rfl

theorem chunksOf_sum_aux (s : Nat) (hs : 0 < s) :
    ∀ (n : Nat) (l : List α), l.length ≤ n →
      ((chunksOf s l).map List.length).sum = l.length := by
  intro n
  induction n with
  | zero =>
    intro l h
    have : l = [] := List.length_eq_zero.mp (Nat.le_zero.mp h)
    subst this
    simp [chunksOf_nil]
  | succ n ih =>
    intro l h
    by_cases hl : l = []
    · subst hl; simp [chunksOf_nil]
    · rw [chunksOf_cons s (Nat.pos_iff_ne_zero.mp hs) l hl]
      have hlen : 0 < l.length := List.length_pos.mpr hl
      simp only [List.map_cons, List.sum_cons]
      rw [ih (l.drop s) (by simp only [List.length_drop]; omega)]
      simp only [List.length_take, List.length_drop]
      omega

theorem chunksOf_sum (s : Nat) (hs : 0 < s) (l : List α) :
    ((chunksOf s l).map List.length).sum = l.length :=
  chunksOf_sum_aux s hs l.length l le_rfl

theorem chunksOf_length_aux (s : Nat) (hs : 0 < s) :
    ∀ (n : Nat) (l : List α), l.length ≤ n →
      (chunksOf s l).length = (l.length + s - 1) / s := by
  intro n
  induction n with
  | zero =>
    intro l h
    have : l = [] := List.length_eq_zero.mp (Nat.le_zero.mp h)
    subst this
    simp only [chunksOf_nil, List.length_nil, Nat.zero_add,
      Nat.div_eq_of_lt (show s - 1 < s by omega)]
  | succ n ih =>
    intro l h
    by_cases hl : l = []
    · subst hl
      simp only [chunksOf_nil, List.length_nil, Nat.zero_add,
        Nat.div_eq_of_lt (show s - 1 < s by omega)]
    · rw [chunksOf_cons s (Nat.pos_iff_ne_zero.mp hs) l hl]
      have hlen : 0 < l.length := List.length_pos.mpr hl
      simp only [List.length_cons]
      rw [ih (l.drop s) (by simp only [List.length_drop]; omega)]
      simp only [List.length_drop]
      rcases Nat.lt_or_ge l.length s with hcase | hcase
      · have h1 : l.length - s = 0 := by omega
        have h2 : l.length + s - 1 = (l.length - 1) + s := by omega
        rw [h1, h2, Nat.zero_add, Nat.div_eq_of_lt (show s - 1 < s by omega),
          Nat.add_div_right _ hs, Nat.div_eq_of_lt (show l.length - 1 < s by omega)]
      · have h1 : l.length - s + s - 1 = l.length - 1 := by omega
        have h2 : l.length + s - 1 = (l.length - 1) + s := by omega
        rw [h1, h2, Nat.add_div_right _ hs]

theorem chunksOf_length (s : Nat) (hs : 0 < s) (l : List α) :
    (chunksOf s l).length = (l.length + s - 1) / s :=
  chunksOf_length_aux s hs l.length l le_rfl

theorem jsSlice_nat (l : List α) (j s : Nat) :
    jsSlice l (j : Int) ((j : Int) + (s : Int)) = (l.drop j).take s := by
  unfold jsSlice jsSliceIdx
  rw [if_neg (by omega), if_neg (by omega)]
  have hb : ((j : Int) + (s : Int)).toNat = j + s := by omega
  have ha : ((j : Int)).toNat = j := by omega
  rw [hb, ha]
  rcases Nat.le_total l.length j with hj | hj
  · rw [List.drop_eq_nil_of_le hj, List.take_nil]
    apply List.drop_eq_nil_of_le
    simp only [List.length_take]
    omega
  · rw [Nat.min_eq_left hj, List.drop_take]
    apply (List.take_eq_take).mpr
    simp only [List.length_drop]
    omega

theorem chunkArrayLoop_eq (s : Nat) (hs : 0 < s) :
    ∀ (fuel : Nat) (l : List α) (j : Nat) (acc : List (List α)),
      l.length - j < fuel →
      chunkArrayLoop fuel l (s : Int) (j : Int) acc
        = some (acc ++ chunksOf s (l.drop j)) := by
  intro fuel
  induction fuel with
  | zero => intro l j acc h; omega
  | succ n ih =>
    intro l j acc h
    simp only [chunkArrayLoop]
    by_cases hj : j < l.length
    · rw [if_pos (by exact_mod_cast hj)]
      have hcast : (j : Int) + (s : Int) = ((j + s : Nat) : Int) := by push_cast; ring
      rw [jsSlice_nat, hcast, ih l (j + s) _ (by omega)]
      rw [chunksOf_cons s (by omega) (l.drop j) (by
        intro hcon
        have hlen := congrArg List.length hcon
        simp only [List.length_drop, List.length_nil] at hlen
        omega)]
      rw [List.drop_drop]
      simp
    · rw [if_neg (by exact_mod_cast hj)]
      rw [List.drop_eq_nil_of_le (by omega), chunksOf_nil, List.append_nil]

theorem chunkArray_eq_chunksOf (l : List α) (size : Int) (h : 1 ≤ size) :
    chunkArray l size = some (chunksOf size.toNat l) := by
  have h2 := chunkArrayLoop_eq (α := α) size.toNat (by omega) (l.length + 1) l 0 []
    (by omega)
  have hcast : ((size.toNat : Nat) : Int) = size := by omega
  rw [hcast] at h2
  simpa [chunkArray] using h2

theorem chunkArrayLoop_none (l : List α) (hl : l ≠ []) (size : Int)
    (hsz : size ≤ 0) :
    ∀ (fuel : Nat) (i : Int), i ≤ 0 → ∀ acc,
      chunkArrayLoop fuel l size i acc = none := by
  intro fuel
  induction fuel with
  | zero => intro i hi acc; rfl
  | succ n ih =>
    intro i hi acc
    have hlen : 0 < l.length := List.length_pos.mpr hl
    simp only [chunkArrayLoop]
    rw [if_pos (by omega)]
    exact ih (i + size) (by omega) _

/-- Claim C1: for every record sequence and every batch size `size ≥ 1`,
`chunkArray` returns (within its exact iteration budget) a batch list with
exactly `ceil(N / size)` batches, whose lengths sum to `N` and whose
in-order concatenation is the original sequence; the empty input yields
the empty batch list.  Determinism and purity hold by construction, the
model being a function of its arguments. -/
theorem chunkArray_partitions {α : Type} (records : List α) (size : Int)
    (hsize : 1 ≤ size) :
    ∃ bs, chunkArray records size = some bs ∧
      bs.length = (records.length + size.toNat - 1) / size.toNat ∧
      (bs.map List.length).sum = records.length ∧
      bs.flatten = records ∧
      chunkArray ([] : List α) size = some [] := by
  have hs : 0 < size.toNat := by omega
  refine ⟨chunksOf size.toNat records, chunkArray_eq_chunksOf records size hsize,
    chunksOf_length size.toNat hs records, chunksOf_sum size.toNat hs records,
    chunksOf_flatten size.toNat hs records, ?_⟩
  rw [chunkArray_eq_chunksOf ([] : List α) size hsize, chunksOf_nil]

/-- Witness for C1 at a concrete input: 5 records with batch size 2 give
3 batches. -/
theorem chunkArray_partitions_witness :
    (1 : Int) ≤ 2 ∧
    ∃ bs, chunkArray [10, 20, 30, 40, 50] (2 : Int) = some bs ∧
      bs.length = (([10, 20, 30, 40, 50] : List Nat).length + (2 : Int).toNat - 1)
        / (2 : Int).toNat ∧
      (bs.map List.length).sum = ([10, 20, 30, 40, 50] : List Nat).length ∧
      bs.flatten = [10, 20, 30, 40, 50] ∧
      chunkArray ([] : List Nat) (2 : Int) = some [] :=
  ⟨by decide, chunkArray_partitions [10, 20, 30, 40, 50] 2 (by decide)⟩

/-- Counterexample to claim C7 as stated: with `size = -1 ≤ 0` and an
empty record list, `chunkArray` neither fails nor reports any
`InvalidConfiguration` (no such error exists in the code): it returns the
ordinary result `[]`. -/
theorem chunkArray_nonpos_counterexample :
    chunkArray ([] : List Nat) (-1) = some [] := by
  rfl

/-- Claim C7 (amended): `chunkArray` performs no size validation.  For
`size ≤ 0` it returns the normal result `[]` on an empty sequence, and on
a non-empty sequence its loop never terminates (it returns `none` for
every iteration budget, in particular never raising any error). -/
theorem chunkArray_no_validation {α : Type} (l : List α) (size : Int)
    (hsz : size ≤ 0) :
    (l = [] → chunkArray l size = some []) ∧
    (l ≠ [] → chunkArray l size = none) ∧
    (l ≠ [] → ∀ (fuel : Nat) (acc : List (List α)),
      chunkArrayLoop fuel l size 0 acc = none) := by
  refine ⟨?_, ?_, ?_⟩
  · intro h
    subst h
    rfl
  · intro h
    exact chunkArrayLoop_none l h size hsz _ 0 le_rfl []
  · intro h fuel acc
    exact chunkArrayLoop_none l h size hsz fuel 0 le_rfl acc

/-- Witness for the amended C7 at a concrete input: size 0 on `[7]`. -/
theorem chunkArray_no_validation_witness :
    (0 : Int) ≤ 0 ∧
    ((([7] : List Nat) = [] → chunkArray ([7] : List Nat) 0 = some []) ∧
     (([7] : List Nat) ≠ [] → chunkArray ([7] : List Nat) 0 = none) ∧
     (([7] : List Nat) ≠ [] → ∀ (fuel : Nat) (acc : List (List Nat)),
       chunkArrayLoop fuel [7] 0 0 acc = none)) :=
  ⟨by decide, chunkArray_no_validation [7] 0 (by decide)⟩

/-! ### Orchestrator lemmas -/

@[simp] theorem pushLog_status (st : RunState) (e : LogEntry) :
    (pushLog st e).status = st.status := rfl

@[simp] theorem pushLog_stats (st : RunState) (e : LogEntry) :
    (pushLog st e).stats = st.stats := rfl

@[simp] theorem pushLog_logs (st : RunState) (e : LogEntry) :
    (pushLog st e).logs = st.logs ++ [e] := rfl

@[simp] theorem pushLog_statsHistory (st : RunState) (e : LogEntry) :
    (pushLog st e).statsHistory = st.statsHistory := rfl

@[simp] theorem pushLog_statusHistory (st : RunState) (e : LogEntry) :
    (pushLog st e).statusHistory = st.statusHistory := rfl

@[simp] theorem pushLog_uploadCalls (st : RunState) (e : LogEntry) :
    (pushLog st e).uploadCalls = st.uploadCalls := rfl

@[simp] theorem pushLog_alerts (st : RunState) (e : LogEntry) :
    (pushLog st e).alerts = st.alerts := rfl

@[simp] theorem setStatusR_status (st : RunState) (s : JobStatus) :
    (setStatusR st s).status = s := rfl

@[simp] theorem setStatusR_stats (st : RunState) (s : JobStatus) :
    (setStatusR st s).stats = st.stats := rfl

@[simp] theorem setStatusR_logs (st : RunState) (s : JobStatus) :
    (setStatusR st s).logs = st.logs := rfl

@[simp] theorem setStatusR_statsHistory (st : RunState) (s : JobStatus) :
    (setStatusR st s).statsHistory = st.statsHistory := rfl

@[simp] theorem setStatusR_statusHistory (st : RunState) (s : JobStatus) :
    (setStatusR st s).statusHistory = st.statusHistory ++ [s] := rfl

@[simp] theorem setStatusR_uploadCalls (st : RunState) (s : JobStatus) :
    (setStatusR st s).uploadCalls = st.uploadCalls := rfl

@[simp] theorem setStatusR_alerts (st : RunState) (s : JobStatus) :
    (setStatusR st s).alerts = st.alerts := rfl

@[simp] theorem setStatsR_status (st : RunState) (s : JobStats) :
    (setStatsR st s).status = st.status := rfl

@[simp] theorem setStatsR_stats (st : RunState) (s : JobStats) :
    (setStatsR st s).stats = s := rfl

@[simp] theorem setStatsR_logs (st : RunState) (s : JobStats) :
    (setStatsR st s).logs = st.logs := rfl

@[simp] theorem setStatsR_statsHistory (st : RunState) (s : JobStats) :
    (setStatsR st s).statsHistory = st.statsHistory ++ [s] := rfl

@[simp] theorem setStatsR_statusHistory (st : RunState) (s : JobStats) :
    (setStatsR st s).statusHistory = st.statusHistory := rfl

@[simp] theorem setStatsR_uploadCalls (st : RunState) (s : JobStats) :
    (setStatsR st s).uploadCalls = st.uploadCalls := rfl

@[simp] theorem setStatsR_alerts (st : RunState) (s : JobStats) :
    (setStatsR st s).alerts = st.alerts := rfl

@[simp] theorem maybeWaitLog_status (st : RunState) (rest : List (List CatalogItem)) :
    (maybeWaitLog st rest).status = st.status := by
  unfold maybeWaitLog; split <;> rfl

@[simp] theorem maybeWaitLog_stats (st : RunState) (rest : List (List CatalogItem)) :
    (maybeWaitLog st rest).stats = st.stats := by
  unfold maybeWaitLog; split <;> rfl

@[simp] theorem maybeWaitLog_statsHistory (st : RunState)
    (rest : List (List CatalogItem)) :
    (maybeWaitLog st rest).statsHistory = st.statsHistory := by
  unfold maybeWaitLog; split <;> rfl

@[simp] theorem maybeWaitLog_statusHistory (st : RunState)
    (rest : List (List CatalogItem)) :
    (maybeWaitLog st rest).statusHistory = st.statusHistory := by
  unfold maybeWaitLog; split <;> rfl

@[simp] theorem maybeWaitLog_uploadCalls (st : RunState)
    (rest : List (List CatalogItem)) :
    (maybeWaitLog st rest).uploadCalls = st.uploadCalls := by
  unfold maybeWaitLog; split <;> rfl

@[simp] theorem maybeWaitLog_alerts (st : RunState)
    (rest : List (List CatalogItem)) :
    (maybeWaitLog st rest).alerts = st.alerts := by
  unfold maybeWaitLog; split <;> rfl

@[simp] theorem batchStep_status (sc : SimulationScenario) (rf : Nat → Bool)
    (i pt : Nat) (b : List CatalogItem) (st : RunState) :
    (batchStep sc rf i pt b st).status = st.status := rfl

@[simp] theorem batchStep_totalRecords (sc : SimulationScenario) (rf : Nat → Bool)
    (i pt : Nat) (b : List CatalogItem) (st : RunState) :
    (batchStep sc rf i pt b st).stats.totalRecords = st.stats.totalRecords := rfl

@[simp] theorem batchStep_batchesTotal (sc : SimulationScenario) (rf : Nat → Bool)
    (i pt : Nat) (b : List CatalogItem) (st : RunState) :
    (batchStep sc rf i pt b st).stats.batchesTotal = st.stats.batchesTotal := rfl

@[simp] theorem batchStep_processedRecords (sc : SimulationScenario) (rf : Nat → Bool)
    (i pt : Nat) (b : List CatalogItem) (st : RunState) :
    (batchStep sc rf i pt b st).stats.processedRecords = pt := rfl

@[simp] theorem batchStep_batchesCompleted (sc : SimulationScenario) (rf : Nat → Bool)
    (i pt : Nat) (b : List CatalogItem) (st : RunState) :
    (batchStep sc rf i pt b st).stats.batchesCompleted = i + 1 := rfl

@[simp] theorem batchStep_uploadCalls (sc : SimulationScenario) (rf : Nat → Bool)
    (i pt : Nat) (b : List CatalogItem) (st : RunState) :
    (batchStep sc rf i pt b st).uploadCalls = st.uploadCalls + 1 := rfl

@[simp] theorem batchStep_statusHistory (sc : SimulationScenario) (rf : Nat → Bool)
    (i pt : Nat) (b : List CatalogItem) (st : RunState) :
    (batchStep sc rf i pt b st).statusHistory = st.statusHistory := rfl

@[simp] theorem batchStep_alerts (sc : SimulationScenario) (rf : Nat → Bool)
    (i pt : Nat) (b : List CatalogItem) (st : RunState) :
    (batchStep sc rf i pt b st).alerts = st.alerts := rfl

@[simp] theorem batchStep_statsHistory (sc : SimulationScenario) (rf : Nat → Bool)
    (i pt : Nat) (b : List CatalogItem) (st : RunState) :
    (batchStep sc rf i pt b st).statsHistory
      = st.statsHistory ++ [(batchStep sc rf i pt b st).stats] := rfl

theorem batchStep_success_add_error (sc : SimulationScenario) (rf : Nat → Bool)
    (i pt : Nat) (b : List CatalogItem) (st : RunState) :
    (batchStep sc rf i pt b st).stats.successCount
      + (batchStep sc rf i pt b st).stats.errorCount
      = st.stats.successCount + st.stats.errorCount + b.length := by
  unfold batchStep
  rcases hup : (simulateUploadBatch (i + 1) b.length sc (rf i)).2 with _ | _ <;>
    simp [hup] <;> omega

theorem batchStep_success_le (sc : SimulationScenario) (rf : Nat → Bool)
    (i pt : Nat) (b : List CatalogItem) (st : RunState) :
    st.stats.successCount ≤ (batchStep sc rf i pt b st).stats.successCount := by
  unfold batchStep
  rcases hup : (simulateUploadBatch (i + 1) b.length sc (rf i)).2 with _ | _ <;>
    simp [hup]

theorem batchStep_error_le (sc : SimulationScenario) (rf : Nat → Bool)
    (i pt : Nat) (b : List CatalogItem) (st : RunState) :
    st.stats.errorCount ≤ (batchStep sc rf i pt b st).stats.errorCount := by
  unfold batchStep
  rcases hup : (simulateUploadBatch (i + 1) b.length sc (rf i)).2 with _ | _ <;>
    simp [hup]

/-- When the cancellation flag is never observed set, the batch loop
processes every remaining batch and completes: one upload call per batch,
stats advanced by every batch size regardless of per-batch success, and
the status set to `COMPLETED`. -/
theorem batchLoop_complete (sc : SimulationScenario) (rf ca : Nat → Bool)
    (hca : ∀ k, ca k = false) :
    ∀ (bs : List (List CatalogItem)) (i p : Nat) (st : RunState),
      st.stats.processedRecords = p →
      st.stats.batchesCompleted = i →
      ∃ r, batchLoop sc rf ca i p st bs = r ∧
        r.status = .COMPLETED ∧
        r.stats.totalRecords = st.stats.totalRecords ∧
        r.stats.batchesTotal = st.stats.batchesTotal ∧
        r.stats.processedRecords = p + (bs.map List.length).sum ∧
        r.stats.batchesCompleted = i + bs.length ∧
        r.stats.successCount + r.stats.errorCount
          = st.stats.successCount + st.stats.errorCount + (bs.map List.length).sum ∧
        r.uploadCalls = st.uploadCalls + bs.length ∧
        r.statusHistory = st.statusHistory ++ [.COMPLETED] ∧
        r.alerts = st.alerts := by
  intro bs
  induction bs with
  | nil =>
    intro i p st hp hc
    refine ⟨_, rfl, ?_⟩
    simp [batchLoop, hp, hc]
  | cons b rest ih =>
    intro i p st hp hc
    have hs1 :
        (maybeWaitLog (batchStep sc rf i (p + b.length) b st) rest).stats.processedRecords
          = p + b.length := by simp
    have hs2 :
        (maybeWaitLog (batchStep sc rf i (p + b.length) b st) rest).stats.batchesCompleted
          = i + 1 := by simp
    obtain ⟨r, hr, h2, h3, h4, h5, h6, h7, h8, h9, h10⟩ :=
      ih (i + 1) (p + b.length)
        (maybeWaitLog (batchStep sc rf i (p + b.length) b st) rest) hs1 hs2
    refine ⟨r, ?_, h2, ?_, ?_, ?_, ?_, ?_, ?_, ?_, ?_⟩
    · simp only [batchLoop]
      rw [if_neg (by simp [hca])]
      exact hr
    · rw [h3]; simp
    · rw [h4]; simp
    · rw [h5]
      simp only [List.map_cons, List.sum_cons]
      omega
    · rw [h6]
      simp only [List.length_cons]
      omega
    · rw [h7]
      have hb := batchStep_success_add_error sc rf i (p + b.length) b st
      simp only [maybeWaitLog_stats] at hb ⊢
      simp only [List.map_cons, List.sum_cons]
      omega
    · rw [h8]
      simp only [maybeWaitLog_uploadCalls, batchStep_uploadCalls, List.length_cons]
      omega
    · rw [h9]; simp
    · rw [h10]; simp

/-- When the cancellation flag is first observed set at the top of the
`k`-th remaining iteration, the batch loop uploads exactly the first `k`
batches, logs the stop warning last, and pauses; later batches leave no
trace in the stats. -/
theorem batchLoop_cancel (sc : SimulationScenario) (rf ca : Nat → Bool) :
    ∀ (k : Nat) (bs : List (List CatalogItem)) (i p : Nat) (st : RunState),
      (∀ j, j < k → ca (2 + i + j) = false) →
      ca (2 + i + k) = true →
      k < bs.length →
      st.stats.processedRecords = p →
      st.stats.batchesCompleted = i →
      ∃ r, batchLoop sc rf ca i p st bs = r ∧
        r.status = .PAUSED ∧
        r.stats.totalRecords = st.stats.totalRecords ∧
        r.stats.batchesTotal = st.stats.batchesTotal ∧
        r.stats.processedRecords = p + ((bs.take k).map List.length).sum ∧
        r.stats.batchesCompleted = i + k ∧
        r.uploadCalls = st.uploadCalls + k ∧
        r.logs.getLast?
          = some (LogEntry.mk .WARNING "Job stopped by user." "STOP" false) ∧
        r.statusHistory = st.statusHistory ++ [.PAUSED] := by
  intro k
  induction k with
  | zero =>
    intro bs i p st hj hk hlt hp hc
    cases bs with
    | nil => simp at hlt
    | cons b rest =>
      refine ⟨_, rfl, ?_⟩
      have hk' : ca (2 + i) = true := by simpa using hk
      simp [batchLoop, hk', hp, hc, List.getLast?_concat]
  | succ k ihk =>
    intro bs i p st hj hk hlt hp hc
    cases bs with
    | nil => simp at hlt
    | cons b rest =>
      have hfalse : ca (2 + i) = false := by simpa using hj 0 (Nat.succ_pos k)
      have hj' : ∀ j, j < k → ca (2 + (i + 1) + j) = false := by
        intro j hjk
        rw [show 2 + (i + 1) + j = 2 + i + (j + 1) from by omega]
        exact hj (j + 1) (by omega)
      have hk' : ca (2 + (i + 1) + k) = true := by
        rw [show 2 + (i + 1) + k = 2 + i + (k + 1) from by omega]
        exact hk
      have hlt' : k < rest.length := by
        simp only [List.length_cons] at hlt
        omega
      obtain ⟨r, hr, h2, h3, h4, h5, h6, h7, h8, h9⟩ :=
        ihk rest (i + 1) (p + b.length)
          (maybeWaitLog (batchStep sc rf i (p + b.length) b st) rest)
          hj' hk' hlt' (by simp) (by simp)
      refine ⟨r, ?_, h2, ?_, ?_, ?_, ?_, ?_, h8, ?_⟩
      · simp only [batchLoop]
        rw [if_neg (by simp [hfalse])]
        exact hr
      · rw [h3]; simp
      · rw [h4]; simp
      · rw [h5]
        simp only [List.take_succ_cons, List.map_cons, List.sum_cons]
        omega
      · rw [h6]
        omega
      · rw [h7]
        simp only [maybeWaitLog_uploadCalls, batchStep_uploadCalls]
        omega
      · rw [h9]; simp

/-- The stats invariants of the spec, for one snapshot. -/
def statsOk (st : JobStats) : Prop :=
  st.processedRecords = st.successCount + st.errorCount ∧
  st.processedRecords ≤ st.totalRecords ∧
  st.batchesCompleted ≤ st.batchesTotal

/-- Pointwise ordering of successive snapshots within one run: the four
counters never decrease and the two totals never change. -/
def statsLE (a b : JobStats) : Prop :=
  a.processedRecords ≤ b.processedRecords ∧
  a.successCount ≤ b.successCount ∧
  a.errorCount ≤ b.errorCount ∧
  a.batchesCompleted ≤ b.batchesCompleted ∧
  a.totalRecords = b.totalRecords ∧
  a.batchesTotal = b.batchesTotal

/-- Every stats snapshot the batch loop appends satisfies the invariants
and extends a monotone chain, for an arbitrary cancellation oracle. -/
theorem batchLoop_history (sc : SimulationScenario) (rf ca : Nat → Bool) :
    ∀ (bs : List (List CatalogItem)) (i p : Nat) (st : RunState),
      st.stats.processedRecords = p →
      st.stats.batchesCompleted = i →
      st.stats.successCount + st.stats.errorCount = p →
      p + (bs.map List.length).sum ≤ st.stats.totalRecords →
      i + bs.length ≤ st.stats.batchesTotal →
      ∃ t, (batchLoop sc rf ca i p st bs).statsHistory = st.statsHistory ++ t ∧
        (∀ s' ∈ t, statsOk s') ∧ List.Chain' statsLE (st.stats :: t) := by
  intro bs
  induction bs with
  | nil =>
    intro i p st hp hc hse htot hbt
    exact ⟨[], by simp [batchLoop], by simp, by simp⟩
  | cons b rest ih =>
    intro i p st hp hc hse htot hbt
    by_cases hca : ca (2 + i) = true
    · refine ⟨[], ?_, by simp, by simp⟩
      simp [batchLoop, hca]
    · have hca' : ca (2 + i) = false := by
        simpa using hca
      have hsa := batchStep_success_add_error sc rf i (p + b.length) b st
      simp only [List.map_cons, List.sum_cons] at htot
      simp only [List.length_cons] at hbt
      obtain ⟨t', ht1, ht2, ht3⟩ := ih (i + 1) (p + b.length)
        (maybeWaitLog (batchStep sc rf i (p + b.length) b st) rest)
        (by simp) (by simp)
        (by simp only [maybeWaitLog_stats]; omega)
        (by simp only [maybeWaitLog_stats, batchStep_totalRecords]; omega)
        (by simp only [maybeWaitLog_stats, batchStep_batchesTotal]; omega)
      refine ⟨(batchStep sc rf i (p + b.length) b st).stats :: t', ?_, ?_, ?_⟩
      · simp only [batchLoop]
        rw [if_neg (by simp [hca'])]
        rw [ht1]
        simp
      · intro s' hs'
        rcases List.mem_cons.mp hs' with rfl | hs'
        · refine ⟨?_, ?_, ?_⟩
          · simp only [batchStep_processedRecords]
            omega
          · simp only [batchStep_processedRecords, batchStep_totalRecords]
            omega
          · simp only [batchStep_batchesCompleted, batchStep_batchesTotal]
            omega
        · exact ht2 s' hs'
      · refine List.Chain'.cons ?_ ?_
        · exact ⟨by simp only [batchStep_processedRecords]; omega,
            batchStep_success_le sc rf i (p + b.length) b st,
            batchStep_error_le sc rf i (p + b.length) b st,
            by simp only [batchStep_batchesCompleted]; omega,
            (batchStep_totalRecords sc rf i (p + b.length) b st).symm,
            (batchStep_batchesTotal sc rf i (p + b.length) b st).symm⟩
        · simpa using ht3

@[simp] theorem startedState_status (s₀ : JobStats) (n bt : Nat) (bsz : Int) :
    (startedState s₀ n bt bsz).status = .RUNNING := rfl

@[simp] theorem startedState_stats (s₀ : JobStats) (n bt : Nat) (bsz : Int) :
    (startedState s₀ n bt bsz).stats
      = JobStats.mk n 0 0 0 bt 0 := rfl

@[simp] theorem startedState_statsHistory (s₀ : JobStats) (n bt : Nat) (bsz : Int) :
    (startedState s₀ n bt bsz).statsHistory
      = [JobStats.mk n 0 0 0 bt 0] := rfl

@[simp] theorem startedState_statusHistory (s₀ : JobStats) (n bt : Nat) (bsz : Int) :
    (startedState s₀ n bt bsz).statusHistory = [.RUNNING] := rfl

@[simp] theorem startedState_uploadCalls (s₀ : JobStats) (n bt : Nat) (bsz : Int) :
    (startedState s₀ n bt bsz).uploadCalls = 0 := rfl

@[simp] theorem startedState_alerts (s₀ : JobStats) (n bt : Nat) (bsz : Int) :
    (startedState s₀ n bt bsz).alerts = [] := rfl

@[simp] theorem loopEntryState_status (u pw : String) (s₀ : JobStats) (n bt : Nat)
    (bsz : Int) (sc : SimulationScenario) :
    (loopEntryState u pw s₀ n bt bsz sc).status = .RUNNING := rfl

@[simp] theorem loopEntryState_stats (u pw : String) (s₀ : JobStats) (n bt : Nat)
    (bsz : Int) (sc : SimulationScenario) :
    (loopEntryState u pw s₀ n bt bsz sc).stats = JobStats.mk n 0 0 0 bt 0 := rfl

@[simp] theorem loopEntryState_statsHistory (u pw : String) (s₀ : JobStats)
    (n bt : Nat) (bsz : Int) (sc : SimulationScenario) :
    (loopEntryState u pw s₀ n bt bsz sc).statsHistory
      = [JobStats.mk n 0 0 0 bt 0] := rfl

@[simp] theorem loopEntryState_statusHistory (u pw : String) (s₀ : JobStats)
    (n bt : Nat) (bsz : Int) (sc : SimulationScenario) :
    (loopEntryState u pw s₀ n bt bsz sc).statusHistory = [.RUNNING] := rfl

@[simp] theorem loopEntryState_uploadCalls (u pw : String) (s₀ : JobStats)
    (n bt : Nat) (bsz : Int) (sc : SimulationScenario) :
    (loopEntryState u pw s₀ n bt bsz sc).uploadCalls = 0 := rfl

@[simp] theorem loopEntryState_alerts (u pw : String) (s₀ : JobStats)
    (n bt : Nat) (bsz : Int) (sc : SimulationScenario) :
    (loopEntryState u pw s₀ n bt bsz sc).alerts = [] := rfl

theorem loopEntryState_logs (u pw : String) (s₀ : JobStats) (n bt : Nat)
    (bsz : Int) (sc : SimulationScenario) :
    (loopEntryState u pw s₀ n bt bsz sc).logs
      = (startedState s₀ n bt bsz).logs ++ (simulateLogin u pw sc).1
        ++ simulateNavigation := rfl

/-- Claim C2: in any run whose preconditions pass, whose login succeeds
and in which cancellation is never requested, the orchestrator uploads
every batch (one upload call per batch, so failed batches do not stop the
loop) and reaches `COMPLETED` with
`successCount + errorCount = processedRecords = totalRecords` and
`batchesCompleted = batchesTotal`. -/
theorem run_success_completes (status₀ : JobStatus) (logs₀ : List LogEntry)
    (stats₀ : JobStats) (username password rawData : String) (batchSize : Int)
    (scenario : SimulationScenario) (cancelAt randFail : Nat → Bool)
    (hu : username ≠ "") (hpw : password ≠ "") (hraw : jsTrim rawData ≠ "")
    (hpd : parseCSV rawData ≠ []) (hbsz : 1 ≤ batchSize)
    (hlogin : (simulateLogin username password scenario).2 = true)
    (hca : ∀ k, cancelAt k = false) :
    ∃ r, runAutomation status₀ logs₀ stats₀ username password rawData batchSize
        scenario cancelAt randFail = some r ∧
      r.status = .COMPLETED ∧
      r.stats.successCount + r.stats.errorCount = r.stats.processedRecords ∧
      r.stats.processedRecords = r.stats.totalRecords ∧
      r.stats.totalRecords = (parseCSV rawData).length ∧
      r.stats.batchesCompleted = r.stats.batchesTotal ∧
      r.uploadCalls = r.stats.batchesTotal := by
  obtain ⟨r, hr, h2, h3, h4, h5, h6, h7, h8, h9, h10⟩ :=
    batchLoop_complete scenario randFail cancelAt hca
      (chunksOf batchSize.toNat (parseCSV rawData)) 0 0
      (loopEntryState username password stats₀ (parseCSV rawData).length
        (chunksOf batchSize.toNat (parseCSV rawData)).length batchSize scenario)
      (by simp) (by simp)
  have hsum := chunksOf_sum batchSize.toNat (by omega) (parseCSV rawData)
  refine ⟨r, ?_, h2, ?_, ?_, ?_, ?_, ?_⟩
  · simp only [runAutomation, runAfterChecks]
    rw [if_neg (show ¬(username = "" ∨ password = "") by tauto),
      if_neg hraw,
      if_neg (show ¬((parseCSV rawData).length = 0) by
        simpa [List.length_eq_zero] using hpd),
      chunkArray_eq_chunksOf _ batchSize hbsz]
    simp only [Option.map_some']
    rw [if_neg (show ¬(cancelAt 0 = true) by simp [hca]),
      if_neg (show ¬((simulateLogin username password scenario).2 = false) by
        simp [hlogin]),
      if_neg (show ¬(cancelAt 1 = true) by simp [hca]),
      hr]
  · simp at h3 h4 h5 h6 h7
    omega
  · simp at h3 h4 h5 h6 h7
    omega
  · simp at h3
    omega
  · simp at h4 h6
    omega
  · simp at h4 h6 h8
    omega

/-- Witness for C2 at a concrete input: 3 records, batch size 2, happy
path, never cancelled. -/
theorem run_success_completes_witness :
    ("alice" : String) ≠ "" ∧ ("pass1234" : String) ≠ "" ∧
    jsTrim "id,name\n1,a\n2,b\n3,c" ≠ "" ∧
    parseCSV "id,name\n1,a\n2,b\n3,c" ≠ [] ∧
    (simulateLogin "alice" "pass1234" .SUCCESS).2 = true ∧
    (∃ r, runAutomation .IDLE [] (JobStats.mk 0 0 0 0 0 0) "alice" "pass1234"
        "id,name\n1,a\n2,b\n3,c" 2 .SUCCESS (fun _ => false) (fun _ => false)
        = some r ∧
      r.status = .COMPLETED ∧
      r.stats.successCount + r.stats.errorCount = r.stats.processedRecords ∧
      r.stats.processedRecords = r.stats.totalRecords ∧
      r.stats.totalRecords = (parseCSV "id,name\n1,a\n2,b\n3,c").length ∧
      r.stats.batchesCompleted = r.stats.batchesTotal ∧
      r.uploadCalls = r.stats.batchesTotal) :=
  ⟨by decide, by decide, by decide, by decide, by decide,
    run_success_completes .IDLE [] (JobStats.mk 0 0 0 0 0 0) "alice" "pass1234"
      "id,name\n1,a\n2,b\n3,c" 2 .SUCCESS (fun _ => false) (fun _ => false)
      (by decide) (by decide) (by decide) (by decide) (by decide) (by decide)
      (fun _ => rfl)⟩

/-- Helper: for a positive batch size the run's batch list is the
structural chunking. -/
theorem theBatches_eq (rawData : String) (batchSize : Int) (h : 1 ≤ batchSize) :
    theBatches rawData batchSize = chunksOf batchSize.toNat (parseCSV rawData) := by
  simp [theBatches, chunkArray_eq_chunksOf _ batchSize h]

/-- Claim C3: in any run that passes the preconditions (any scenario, any
cancellation pattern, any per-batch outcomes), every stats snapshot ever
set satisfies `processed = success + error`, `processed ≤ total` and
`completed ≤ batchesTotal`; the snapshots form a monotone chain (counters
non-decreasing, totals constant), and the first snapshot of the run is the
all-zero-counter initialization. -/
theorem run_stats_invariants (status₀ : JobStatus) (logs₀ : List LogEntry)
    (stats₀ : JobStats) (username password rawData : String) (batchSize : Int)
    (scenario : SimulationScenario) (cancelAt randFail : Nat → Bool)
    (hu : username ≠ "") (hpw : password ≠ "") (hraw : jsTrim rawData ≠ "")
    (hpd : parseCSV rawData ≠ []) (hbsz : 1 ≤ batchSize) :
    ∃ r, runAutomation status₀ logs₀ stats₀ username password rawData batchSize
        scenario cancelAt randFail = some r ∧
      (∀ s' ∈ r.statsHistory, statsOk s') ∧
      List.Chain' statsLE r.statsHistory ∧
      ∃ t, r.statsHistory
        = JobStats.mk (parseCSV rawData).length 0 0 0
            (theBatches rawData batchSize).length 0 :: t := by
  have hsum := chunksOf_sum batchSize.toNat (by omega) (parseCSV rawData)
  have hbt := theBatches_eq rawData batchSize hbsz
  simp only [runAutomation, runAfterChecks]
  rw [if_neg (show ¬(username = "" ∨ password = "") by tauto),
    if_neg hraw,
    if_neg (show ¬((parseCSV rawData).length = 0) by
      simpa [List.length_eq_zero] using hpd),
    chunkArray_eq_chunksOf _ batchSize hbsz]
  simp only [Option.map_some']
  by_cases hca0 : cancelAt 0 = true
  · rw [if_pos hca0]
    refine ⟨_, rfl, ?_, ?_, ?_⟩
    · intro s' hs'
      simp only [startedState_statsHistory, List.mem_singleton] at hs'
      subst hs'
      exact ⟨rfl, Nat.zero_le _, Nat.zero_le _⟩
    · simp
    · exact ⟨[], by simp [hbt]⟩
  · rw [if_neg hca0]
    by_cases hlog : (simulateLogin username password scenario).2 = false
    · rw [if_pos hlog]
      refine ⟨_, rfl, ?_, ?_, ?_⟩
      · intro s' hs'
        simp only [setStatusR_statsHistory] at hs'
        simp only [startedState_statsHistory] at hs'
        simp at hs'
        subst hs'
        exact ⟨rfl, Nat.zero_le _, Nat.zero_le _⟩
      · simp
      · exact ⟨[], by simp [hbt]⟩
    · rw [if_neg hlog]
      by_cases hca1 : cancelAt 1 = true
      · rw [if_pos hca1]
        refine ⟨_, rfl, ?_, ?_, ?_⟩
        · intro s' hs'
          simp at hs'
          subst hs'
          exact ⟨rfl, Nat.zero_le _, Nat.zero_le _⟩
        · simp
        · exact ⟨[], by simp [hbt]⟩
      · rw [if_neg hca1]
        obtain ⟨t, ht1, ht2, ht3⟩ := batchLoop_history scenario randFail cancelAt
          (chunksOf batchSize.toNat (parseCSV rawData)) 0 0
          (loopEntryState username password stats₀ (parseCSV rawData).length
            (chunksOf batchSize.toNat (parseCSV rawData)).length batchSize scenario)
          (by simp) (by simp) (by simp)
          (by simp only [loopEntryState_stats]; omega)
          (by simp only [loopEntryState_stats]; omega)
        refine ⟨_, rfl, ?_, ?_, ?_⟩
        · intro s' hs'
          rw [ht1] at hs'
          simp only [loopEntryState_statsHistory, List.singleton_append,
            List.mem_cons] at hs'
          rcases hs' with rfl | hs'
          · exact ⟨rfl, Nat.zero_le _, Nat.zero_le _⟩
          · exact ht2 s' hs'
        · rw [ht1]
          simp only [loopEntryState_statsHistory, List.singleton_append]
          simpa using ht3
        · exact ⟨t, by rw [ht1]; simp [hbt]⟩

/-- Witness for C3 at a concrete input: a 3-record run with one forced
upload failure and cancellation after the second checkpoint. -/
theorem run_stats_invariants_witness :
    ("bob" : String) ≠ "" ∧ ("hunter22" : String) ≠ "" ∧
    jsTrim "id,v\n7,x\n8,y\n9,z" ≠ "" ∧ parseCSV "id,v\n7,x\n8,y\n9,z" ≠ [] ∧
    (∃ r, runAutomation .IDLE [] (JobStats.mk 0 0 0 0 0 0) "bob" "hunter22"
        "id,v\n7,x\n8,y\n9,z" 2 .ERROR_UPLOAD (fun k => decide (4 ≤ k))
        (fun _ => false) = some r ∧
      (∀ s' ∈ r.statsHistory, statsOk s') ∧
      List.Chain' statsLE r.statsHistory ∧
      ∃ t, r.statsHistory
        = JobStats.mk (parseCSV "id,v\n7,x\n8,y\n9,z").length 0 0 0
            (theBatches "id,v\n7,x\n8,y\n9,z" 2).length 0 :: t) :=
  ⟨by decide, by decide, by decide, by decide,
    run_stats_invariants .IDLE [] (JobStats.mk 0 0 0 0 0 0) "bob" "hunter22"
      "id,v\n7,x\n8,y\n9,z" 2 .ERROR_UPLOAD (fun k => decide (4 ≤ k))
      (fun _ => false) (by decide) (by decide) (by decide) (by decide) (by decide)⟩

/-- Claim C4: if the cancellation flag is observed clear before login and
navigation but first observed set at the top of the batch loop after
exactly `k` completed batches (`k < batchesTotal`), the run appends the
Warning stop event as its last log entry, transitions to `PAUSED`, and
stops with `batchesCompleted = k` and `processedRecords` equal to the sum
of the first `k` batch sizes; unstarted batches trigger no upload call. -/
theorem run_cancel_pauses (status₀ : JobStatus) (logs₀ : List LogEntry)
    (stats₀ : JobStats) (username password rawData : String) (batchSize : Int)
    (scenario : SimulationScenario) (cancelAt randFail : Nat → Bool) (k : Nat)
    (hu : username ≠ "") (hpw : password ≠ "") (hraw : jsTrim rawData ≠ "")
    (hpd : parseCSV rawData ≠ []) (hbsz : 1 ≤ batchSize)
    (hlogin : (simulateLogin username password scenario).2 = true)
    (hca0 : cancelAt 0 = false) (hca1 : cancelAt 1 = false)
    (hcaj : ∀ j, j < k → cancelAt (2 + j) = false)
    (hcak : cancelAt (2 + k) = true)
    (hk : k < (theBatches rawData batchSize).length) :
    ∃ r, runAutomation status₀ logs₀ stats₀ username password rawData batchSize
        scenario cancelAt randFail = some r ∧
      r.status = .PAUSED ∧
      r.stats.batchesCompleted = k ∧
      r.stats.processedRecords
        = (((theBatches rawData batchSize).take k).map List.length).sum ∧
      r.uploadCalls = k ∧
      r.logs.getLast?
        = some (LogEntry.mk .WARNING "Job stopped by user." "STOP" false) := by
  have hbt := theBatches_eq rawData batchSize hbsz
  rw [hbt] at hk
  obtain ⟨r, hr, h2, h3, h4, h5, h6, h7, h8, h9⟩ :=
    batchLoop_cancel scenario randFail cancelAt k
      (chunksOf batchSize.toNat (parseCSV rawData)) 0 0
      (loopEntryState username password stats₀ (parseCSV rawData).length
        (chunksOf batchSize.toNat (parseCSV rawData)).length batchSize scenario)
      (by intro j hj; simpa using hcaj j hj)
      (by simpa using hcak)
      hk (by simp) (by simp)
  refine ⟨r, ?_, h2, ?_, ?_, ?_, h8⟩
  · simp only [runAutomation, runAfterChecks]
    rw [if_neg (show ¬(username = "" ∨ password = "") by tauto),
      if_neg hraw,
      if_neg (show ¬((parseCSV rawData).length = 0) by
        simpa [List.length_eq_zero] using hpd),
      chunkArray_eq_chunksOf _ batchSize hbsz]
    simp only [Option.map_some']
    rw [if_neg (by simp [hca0]),
      if_neg (show ¬((simulateLogin username password scenario).2 = false) by
        simp [hlogin]),
      if_neg (by simp [hca1]),
      hr]
  · omega
  · rw [hbt]
    omega
  · simp only [loopEntryState_uploadCalls] at h7
    omega

/-- Witness for C4 at a concrete input: 3 single-record batches, the flag
set after batch 1 completes (read number 3). -/
theorem run_cancel_pauses_witness :
    (simulateLogin "carol" "topsecret" .SUCCESS).2 = true ∧
    (fun n => decide (3 ≤ n)) 0 = false ∧
    (fun n => decide (3 ≤ n)) 1 = false ∧
    (∀ j, j < 1 → (fun n => decide (3 ≤ n)) (2 + j) = false) ∧
    (fun n => decide (3 ≤ n)) (2 + 1) = true ∧
    1 < (theBatches "id,v\n1,a\n2,b\n3,c" 1).length ∧
    (∃ r, runAutomation .IDLE [] (JobStats.mk 0 0 0 0 0 0) "carol" "topsecret"
        "id,v\n1,a\n2,b\n3,c" 1 .SUCCESS (fun n => decide (3 ≤ n))
        (fun _ => false) = some r ∧
      r.status = .PAUSED ∧
      r.stats.batchesCompleted = 1 ∧
      r.stats.processedRecords
        = (((theBatches "id,v\n1,a\n2,b\n3,c" 1).take 1).map List.length).sum ∧
      r.uploadCalls = 1 ∧
      r.logs.getLast?
        = some (LogEntry.mk .WARNING "Job stopped by user." "STOP" false)) :=
  ⟨by decide, by decide, by decide,
    (fun j hj => by
      have hj0 : j = 0 := by omega
      subst hj0
      decide),
    by decide, by decide,
    run_cancel_pauses .IDLE [] (JobStats.mk 0 0 0 0 0 0) "carol" "topsecret"
      "id,v\n1,a\n2,b\n3,c" 1 .SUCCESS (fun n => decide (3 ≤ n)) (fun _ => false) 1
      (by decide) (by decide) (by decide) (by decide) (by decide) (by decide)
      (by decide) (by decide)
      (fun j hj => by
        have hj0 : j = 0 := by omega
        subst hj0
        decide)
      (by decide) (by decide)⟩

theorem startedState_logs (s₀ : JobStats) (n bt : Nat) (bsz : Int) :
    (startedState s₀ n bt bsz).logs
      = [LogEntry.mk .SYSTEM
           "Initializing Automation Agent v1.0 (Simulation Mode)..." "INIT" false,
         LogEntry.mk .INFO
           "Target URL: https://withpassion.decathlon.net/rank2/control/login"
           "INIT" false,
         LogEntry.mk .SUCCESS
           ("Data parsed successfully. " ++ toString n ++ " records found.")
           "DATA" false,
         LogEntry.mk .INFO
           ("Split into " ++ toString bt ++ " batch(es) of max "
             ++ toString bsz ++ " records.")
           "DATA" false] := rfl

/-- A failed login always leaves at least one Error-severity event among
the events it emitted. -/
theorem simulateLogin_failure_error (u pw : String) (sc : SimulationScenario)
    (h : (simulateLogin u pw sc).2 = false) :
    ∃ e ∈ (simulateLogin u pw sc).1, e.level = .ERROR := by
  unfold simulateLogin at h ⊢
  by_cases h1 : sc = .ERROR_VPN
  · rw [if_pos h1]
    exact ⟨LogEntry.mk .ERROR "Network Error: Host unreachable." "NET" false,
      by simp, rfl⟩
  · rw [if_neg h1] at h ⊢
    by_cases h2 : sc = .ERROR_AUTH ∨ jsIncludes u "error" = true ∨
        isInvalidPassword pw = true
    · rw [if_pos h2]
      exact ⟨LogEntry.mk .ERROR
        "Authentication failed: Invalid credentials or Account Locked." "AUTH" true,
        by simp, rfl⟩
    · rw [if_neg h2] at h
      simp at h

/-- No event the login phase emits carries the navigation tag. -/
theorem simulateLogin_steps (u pw : String) (sc : SimulationScenario) :
    ∀ e ∈ (simulateLogin u pw sc).1, e.step ≠ "NAV" := by
  unfold simulateLogin
  by_cases h1 : sc = .ERROR_VPN
  · rw [if_pos h1]
    intro e he
    simp at he
    rcases he with rfl | rfl | rfl <;> decide
  · rw [if_neg h1]
    by_cases h2 : sc = .ERROR_AUTH ∨ jsIncludes u "error" = true ∨
        isInvalidPassword pw = true
    · rw [if_pos h2]
      intro e he
      simp at he
      rcases he with rfl | rfl | rfl | rfl <;> simp
    · rw [if_neg h2]
      intro e he
      simp at he
      rcases he with rfl | rfl | rfl <;> simp

/-- Claim C5: when the login phase reports failure (and cancellation was
not requested before it), the run appends an Error-severity event,
transitions to `FAILED` and stops: the upload capability is never called,
no batch completes, and no navigation event is ever logged. -/
theorem run_login_failure (status₀ : JobStatus) (logs₀ : List LogEntry)
    (stats₀ : JobStats) (username password rawData : String) (batchSize : Int)
    (scenario : SimulationScenario) (cancelAt randFail : Nat → Bool)
    (hu : username ≠ "") (hpw : password ≠ "") (hraw : jsTrim rawData ≠ "")
    (hpd : parseCSV rawData ≠ []) (hbsz : 1 ≤ batchSize)
    (hca0 : cancelAt 0 = false)
    (hlogin : (simulateLogin username password scenario).2 = false) :
    ∃ r, runAutomation status₀ logs₀ stats₀ username password rawData batchSize
        scenario cancelAt randFail = some r ∧
      r.status = .FAILED ∧
      r.uploadCalls = 0 ∧
      r.stats.batchesCompleted = 0 ∧
      (∃ e ∈ r.logs, e.level = .ERROR) ∧
      (∀ e ∈ r.logs, e.step ≠ "NAV") := by
  simp only [runAutomation, runAfterChecks]
  rw [if_neg (show ¬(username = "" ∨ password = "") by tauto),
    if_neg hraw,
    if_neg (show ¬((parseCSV rawData).length = 0) by
      simpa [List.length_eq_zero] using hpd),
    chunkArray_eq_chunksOf _ batchSize hbsz]
  simp only [Option.map_some']
  rw [if_neg (by simp [hca0]), if_pos hlogin]
  refine ⟨_, rfl, ?_, ?_, ?_, ?_, ?_⟩
  · simp
  · simp
  · simp
  · obtain ⟨e, he, hlev⟩ := simulateLogin_failure_error username password scenario
      hlogin
    exact ⟨e, by simp [List.mem_append, he], hlev⟩
  · intro e he
    simp only [setStatusR_logs] at he
    simp only [startedState_logs] at he
    simp only [List.mem_append, List.mem_cons, List.not_mem_nil, or_false] at he
    rcases he with (rfl | rfl | rfl | rfl) | he
    · simp
    · simp
    · simp
    · simp
    · exact simulateLogin_steps username password scenario e he

/-- Witness for C5 at a concrete input: the forced authentication-failure
scenario. -/
theorem run_login_failure_witness :
    (simulateLogin "dave" "goodpass" .ERROR_AUTH).2 = false ∧
    parseCSV "id,n\n1,a\n2,b" ≠ [] ∧
    (∃ r, runAutomation .IDLE [] (JobStats.mk 0 0 0 0 0 0) "dave" "goodpass"
        "id,n\n1,a\n2,b" 500 .ERROR_AUTH (fun _ => false) (fun _ => false)
        = some r ∧
      r.status = .FAILED ∧
      r.uploadCalls = 0 ∧
      r.stats.batchesCompleted = 0 ∧
      (∃ e ∈ r.logs, e.level = .ERROR) ∧
      (∀ e ∈ r.logs, e.step ≠ "NAV")) :=
  ⟨by decide, by decide,
    run_login_failure .IDLE [] (JobStats.mk 0 0 0 0 0 0) "dave" "goodpass"
      "id,n\n1,a\n2,b" 500 .ERROR_AUTH (fun _ => false) (fun _ => false)
      (by decide) (by decide) (by decide) (by decide) (by decide) (by decide)
      (by decide)⟩

/-- Claim C6: a Start with an empty username, empty password, or empty
parsed record set fails fast with an `alert` (the precondition error) and
leaves the prior status, log and stats untouched; in particular no status
transition happens at all, so the job never enters `RUNNING`. -/
theorem run_precondition_unchanged (status₀ : JobStatus) (logs₀ : List LogEntry)
    (stats₀ : JobStats) (username password rawData : String) (batchSize : Int)
    (scenario : SimulationScenario) (cancelAt randFail : Nat → Bool)
    (h : username = "" ∨ password = "" ∨ parseCSV rawData = []) :
    ∃ r, runAutomation status₀ logs₀ stats₀ username password rawData batchSize
        scenario cancelAt randFail = some r ∧
      r.status = status₀ ∧
      r.logs = logs₀ ∧
      r.stats = stats₀ ∧
      r.statusHistory = [] ∧
      r.statsHistory = [] ∧
      r.uploadCalls = 0 ∧
      r.alerts ≠ [] := by
  simp only [runAutomation]
  by_cases h1 : username = "" ∨ password = ""
  · rw [if_pos h1]
    exact ⟨_, rfl, rfl, rfl, rfl, rfl, rfl, rfl, by simp⟩
  · rw [if_neg h1]
    have hpd : parseCSV rawData = [] := by tauto
    by_cases h2 : jsTrim rawData = ""
    · rw [if_pos h2]
      exact ⟨_, rfl, rfl, rfl, rfl, rfl, rfl, rfl, by simp⟩
    · rw [if_neg h2, if_pos (by simp [hpd])]
      exact ⟨_, rfl, rfl, rfl, rfl, rfl, rfl, rfl, by simp⟩

/-- Witness for C6 at a concrete input: a non-empty raw text whose rows
all have the wrong field count parses to no records, and the Start leaves
everything unchanged. -/
theorem run_precondition_unchanged_witness :
    (("erin" : String) = "" ∨ ("pw123456" : String) = "" ∨
      parseCSV "id,name\nonlyonefield" = []) ∧
    (∃ r, runAutomation .COMPLETED
        [LogEntry.mk .INFO "old" "SYS" false] (JobStats.mk 9 9 9 0 1 1)
        "erin" "pw123456" "id,name\nonlyonefield" 500 .SUCCESS
        (fun _ => false) (fun _ => false) = some r ∧
      r.status = .COMPLETED ∧
      r.logs = [LogEntry.mk .INFO "old" "SYS" false] ∧
      r.stats = JobStats.mk 9 9 9 0 1 1 ∧
      r.statusHistory = [] ∧
      r.statsHistory = [] ∧
      r.uploadCalls = 0 ∧
      r.alerts ≠ []) :=
  ⟨by decide,
    run_precondition_unchanged .COMPLETED
      [LogEntry.mk .INFO "old" "SYS" false] (JobStats.mk 9 9 9 0 1 1)
      "erin" "pw123456" "id,name\nonlyonefield" 500 .SUCCESS
      (fun _ => false) (fun _ => false) (by decide)⟩

/-- In every non-VPN failure path the login phase emits exactly these four
events (one of them the single Error, tagged AUTH). -/
theorem simulateLogin_authfail_logs (u pw : String) (sc : SimulationScenario)
    (hvpn : sc ≠ .ERROR_VPN) (h : (simulateLogin u pw sc).2 = false) :
    (simulateLogin u pw sc).1
      = [LogEntry.mk .INFO
           "Navigating to https://withpassion.decathlon.net/rank2/control/login"
           "LOGIN" false,
         LogEntry.mk .INFO ("Checking credentials for user: " ++ u) "AUTH" false,
         LogEntry.mk .ERROR
           "Authentication failed: Invalid credentials or Account Locked."
           "AUTH" true,
         LogEntry.mk .SYSTEM
           "(Simulation Tip: Avoid using passwords containing \"wrong\" or \"error\" for the Happy Path)"
           "AUTH" false] := by
  unfold simulateLogin at h ⊢
  rw [if_neg hvpn] at h ⊢
  by_cases h2 : sc = .ERROR_AUTH ∨ jsIncludes u "error" = true ∨
      isInvalidPassword pw = true
  · rw [if_pos h2]
    rfl
  · rw [if_neg h2] at h
    simp at h

/-- Claim C8 (amended): a login failure outside the VPN scenario drives
the status history `RUNNING → FAILED`, leaves exactly one Error-severity
event in the whole log — tagged `AUTH` — and leaves the stats at their
initialization values.  (In the `ERROR_VPN` scenario the log instead
contains two Error events, tagged `NET` and `SYS`; see the
counterexample.) -/
theorem run_login_failure_single_auth_error (status₀ : JobStatus)
    (logs₀ : List LogEntry) (stats₀ : JobStats)
    (username password rawData : String) (batchSize : Int)
    (scenario : SimulationScenario) (cancelAt randFail : Nat → Bool)
    (hu : username ≠ "") (hpw : password ≠ "") (hraw : jsTrim rawData ≠ "")
    (hpd : parseCSV rawData ≠ []) (hbsz : 1 ≤ batchSize)
    (hca0 : cancelAt 0 = false) (hvpn : scenario ≠ .ERROR_VPN)
    (hlogin : (simulateLogin username password scenario).2 = false) :
    ∃ r, runAutomation status₀ logs₀ stats₀ username password rawData batchSize
        scenario cancelAt randFail = some r ∧
      r.statusHistory = [.RUNNING, .FAILED] ∧
      (r.logs.filter (fun e => e.level == .ERROR)).length = 1 ∧
      (∀ e ∈ r.logs, e.level = .ERROR → e.step = "AUTH") ∧
      r.stats = JobStats.mk (parseCSV rawData).length 0 0 0
        (theBatches rawData batchSize).length 0 := by
  have hbt := theBatches_eq rawData batchSize hbsz
  have hlogs := simulateLogin_authfail_logs username password scenario hvpn hlogin
  simp only [runAutomation, runAfterChecks]
  rw [if_neg (show ¬(username = "" ∨ password = "") by tauto),
    if_neg hraw,
    if_neg (show ¬((parseCSV rawData).length = 0) by
      simpa [List.length_eq_zero] using hpd),
    chunkArray_eq_chunksOf _ batchSize hbsz]
  simp only [Option.map_some']
  rw [if_neg (by simp [hca0]), if_pos hlogin]
  refine ⟨_, rfl, ?_, ?_, ?_, ?_⟩
  · simp
  · simp [startedState_logs, hlogs]
  · intro e he
    simp only [setStatusR_logs, startedState_logs, hlogs, List.mem_append,
      List.mem_cons, List.not_mem_nil, or_false] at he
    rcases he with (rfl | rfl | rfl | rfl) | (rfl | rfl | rfl | rfl) <;> simp
  · rw [hbt]
    simp

/-- Counterexample to claim C8 as stated: a concrete run whose login
capability fails through the VPN scenario logs two Error-severity events
(tagged NET and SYS), not exactly one. -/
theorem run_vpn_two_errors_counterexample :
    countErrorLogs (runAutomation .IDLE [] (JobStats.mk 0 0 0 0 0 0) "user"
      "secret99" "id,name\n1,a" 1 .ERROR_VPN (fun _ => false) (fun _ => false))
      = 2 := by
  decide

/-- Witness for the amended C8 at a concrete input: the forced
authentication-rejection scenario. -/
theorem run_login_failure_single_auth_error_witness :
    SimulationScenario.ERROR_AUTH ≠ SimulationScenario.ERROR_VPN ∧
    (simulateLogin "frank" "hunter77" .ERROR_AUTH).2 = false ∧
    (∃ r, runAutomation .IDLE [] (JobStats.mk 0 0 0 0 0 0) "frank" "hunter77"
        "id,q\n4,d\n5,e" 2 .ERROR_AUTH (fun _ => false) (fun _ => false)
        = some r ∧
      r.statusHistory = [.RUNNING, .FAILED] ∧
      (r.logs.filter (fun e => e.level == .ERROR)).length = 1 ∧
      (∀ e ∈ r.logs, e.level = .ERROR → e.step = "AUTH") ∧
      r.stats = JobStats.mk (parseCSV "id,q\n4,d\n5,e").length 0 0 0
        (theBatches "id,q\n4,d\n5,e" 2).length 0) :=
  ⟨by decide, by decide,
    run_login_failure_single_auth_error .IDLE [] (JobStats.mk 0 0 0 0 0 0)
      "frank" "hunter77" "id,q\n4,d\n5,e" 2 .ERROR_AUTH (fun _ => false)
      (fun _ => false) (by decide) (by decide) (by decide) (by decide)
      (by decide) (by decide) (by decide) (by decide)⟩

/-- Claim C9 (amended): the run depends on the password only through its
emptiness and the validity predicate `isInvalidPassword` — the password
value is never interpolated into any log message or other output.  Two
runs differing only in such equivalent passwords are identical, logs
included. -/
theorem run_password_noninterference (status₀ : JobStatus)
    (logs₀ : List LogEntry) (stats₀ : JobStats) (username rawData : String)
    (batchSize : Int) (scenario : SimulationScenario)
    (cancelAt randFail : Nat → Bool) (p₁ p₂ : String)
    (hemp : p₁ = "" ↔ p₂ = "")
    (hval : isInvalidPassword p₁ = isInvalidPassword p₂) :
    runAutomation status₀ logs₀ stats₀ username p₁ rawData batchSize scenario
        cancelAt randFail
      = runAutomation status₀ logs₀ stats₀ username p₂ rawData batchSize
          scenario cancelAt randFail := by
  have hlogin : simulateLogin username p₁ scenario
      = simulateLogin username p₂ scenario := by
    unfold simulateLogin
    rw [hval]
  have hentry : ∀ n bt,
      loopEntryState username p₁ stats₀ n bt batchSize scenario
        = loopEntryState username p₂ stats₀ n bt batchSize scenario := by
    intro n bt
    unfold loopEntryState
    rw [hlogin]
  simp only [runAutomation, runAfterChecks, hlogin, hentry]
  by_cases h1 : username = ""
  · simp [h1]
  · by_cases h2 : p₁ = ""
    · have h2' : p₂ = "" := hemp.mp h2
      simp [h1, h2, h2']
    · have h2' : ¬(p₂ = "") := fun hh => h2 (hemp.mpr hh)
      simp [h1, h2, h2']

/-- Counterexample to claim C9 as stated: with username and password both
`admin`, the login phase's credential-check message contains the supplied
password string, so the password does appear in a log message. -/
theorem run_password_logged_counterexample :
    logsContain (runAutomation .IDLE [] (JobStats.mk 0 0 0 0 0 0) "admin"
      "admin" "id,name\n1,a" 500 .SUCCESS (fun _ => false) (fun _ => false))
      "admin" = true := by
  decide

/-- Witness for the amended C9 at concrete inputs: two distinct valid
passwords produce byte-identical runs. -/
theorem run_password_noninterference_witness :
    (("pass1234" : String) = "" ↔ ("secret99" : String) = "") ∧
    isInvalidPassword "pass1234" = isInvalidPassword "secret99" ∧
    runAutomation .IDLE [] (JobStats.mk 0 0 0 0 0 0) "grace" "pass1234"
        "id,w\n1,u\n2,v" 2 .SUCCESS (fun _ => false) (fun _ => false)
      = runAutomation .IDLE [] (JobStats.mk 0 0 0 0 0 0) "grace" "secret99"
          "id,w\n1,u\n2,v" 2 .SUCCESS (fun _ => false) (fun _ => false) :=
  ⟨by decide, by decide,
    run_password_noninterference .IDLE [] (JobStats.mk 0 0 0 0 0 0) "grace"
      "id,w\n1,u\n2,v" 2 .SUCCESS (fun _ => false) (fun _ => false)
      "pass1234" "secret99" (by decide) (by decide)⟩

theorem objGet_objSet_self (item : CatalogItem) (k : String) (v : CellVal) :
    objGet (objSet item k v) k = some v := by
  induction item with
  | nil => simp [objSet, objGet]
  | cons kv t ih =>
    obtain ⟨k', v'⟩ := kv
    unfold objSet
    by_cases hk : k' = k
    · rw [if_pos hk]
      simp [objGet]
    · rw [if_neg hk]
      unfold objGet
      rw [if_neg hk]
      exact ih

/-- The synthesized `row-` identifier is a non-empty string, hence
truthy. -/
theorem rowId_truthy (i : Nat) :
    jsFalsy (CellVal.str ("row-" ++ toString i)) = false := by
  simp only [jsFalsy]
  rw [beq_eq_false_iff_ne]
  intro hcon
  have h2 := congrArg String.data hcon
  rw [String.data_append] at h2
  have h3 : ("row-" : String).data = ['r', 'o', 'w', '-'] := rfl
  rw [h3] at h2
  simp at h2

/-- After the id fix-up, the `id` property exists and is truthy. -/
theorem fixId_id_truthy (item : CatalogItem) (i : Nat) :
    ∃ v, objGet (fixId item i) "id" = some v ∧ jsFalsy v = false := by
  cases hid : objGet item "id" with
  | none =>
    simp only [fixId, hid]
    exact ⟨_, objGet_objSet_self item "id" _, rowId_truthy i⟩
  | some v =>
    by_cases hv : jsFalsy v = true
    · simp only [fixId, hid, if_pos hv]
      exact ⟨_, objGet_objSet_self item "id" _, rowId_truthy i⟩
    · simp only [fixId, hid, if_neg hv]
      exact ⟨v, objGet_objSet_self item "id" v, by simpa using hv⟩

/-- A missing or falsy id is replaced by the synthesized `row-` id. -/
theorem fixId_synthesizes (item : CatalogItem) (i : Nat)
    (h : jsFalsyOpt (objGet item "id") = true) :
    objGet (fixId item i) "id" = some (CellVal.str ("row-" ++ toString i)) := by
  cases hid : objGet item "id" with
  | none =>
    simp only [fixId, hid]
    exact objGet_objSet_self item "id" _
  | some v =>
    rw [hid] at h
    simp only [jsFalsyOpt] at h
    simp only [fixId, hid, if_pos h]
    exact objGet_objSet_self item "id" _

/-- The row loop of `parseCSV` as a filterMap over 1-indexed lines:
mismatched rows yield no record, matching rows yield the fixed-up item. -/
theorem parseRows_eq_filterMap (headers : List String) :
    ∀ (rows : List String) (i : Nat),
      parseRows headers i rows
        = (List.enumFrom i rows).filterMap
          (fun q =>
            if (jsSplitOnChar q.2 ',').length = headers.length
            then some (fixId (assignCells headers (jsSplitOnChar q.2 ',')) q.1)
            else none) := by
  intro rows
  induction rows with
  | nil => intro i; rfl
  | cons line rest ih =>
    intro i
    rw [List.enumFrom_cons]
    by_cases hc : (jsSplitOnChar line ',').length = headers.length
    · simp only [parseRows]
      rw [if_neg (by simpa using hc)]
      simp [List.filterMap_cons, hc, ih (i + 1)]
    · simp only [parseRows]
      rw [if_pos (by simpa using hc)]
      simp [List.filterMap_cons, hc, ih (i + 1)]

/-- `parseCSV` in declarative form. -/
theorem parseCSV_eq_filterMap (s : String) :
    parseCSV s
      = (if (jsSplitOnChar (jsTrim s) '\n').length < 2 then []
         else (List.enumFrom 1 (jsSplitOnChar (jsTrim s) '\n').tail).filterMap
           (fun q =>
             if (jsSplitOnChar q.2 ',').length = (csvHeaders s).length
             then some (fixId (assignCells (csvHeaders s)
               (jsSplitOnChar q.2 ',')) q.1)
             else none)) := by
  simp only [parseCSV, csvHeaders]
  by_cases hlen : (jsSplitOnChar (jsTrim s) '\n').length < 2
  · rw [if_pos hlen, if_pos hlen]
  · rw [if_neg hlen, if_neg hlen, parseRows_eq_filterMap]

/-- Claim C10: every record `parseCSV` returns has a truthy `id` (never
missing, never the empty string, never the number 0); a missing or falsy
id is replaced by the synthesized `row-` + 1-based line index; and rows
whose field count differs from the header count are dropped, producing no
record (the loop is exactly a filterMap keeping matching rows). -/
theorem parseCSV_id_synthesis (s : String) :
    (∀ rec ∈ parseCSV s, ∃ v, objGet rec "id" = some v ∧ jsFalsy v = false) ∧
    (∀ (item : CatalogItem) (i : Nat),
      jsFalsyOpt (objGet item "id") = true →
      objGet (fixId item i) "id" = some (CellVal.str ("row-" ++ toString i))) ∧
    parseCSV s
      = (if (jsSplitOnChar (jsTrim s) '\n').length < 2 then []
         else (List.enumFrom 1 (jsSplitOnChar (jsTrim s) '\n').tail).filterMap
           (fun q =>
             if (jsSplitOnChar q.2 ',').length = (csvHeaders s).length
             then some (fixId (assignCells (csvHeaders s)
               (jsSplitOnChar q.2 ',')) q.1)
             else none)) := by
  refine ⟨?_, fun item i h => fixId_synthesizes item i h, parseCSV_eq_filterMap s⟩
  intro rec hrec
  rw [parseCSV_eq_filterMap s] at hrec
  by_cases hlen : (jsSplitOnChar (jsTrim s) '\n').length < 2
  · rw [if_pos hlen] at hrec
    simp at hrec
  · rw [if_neg hlen] at hrec
    rw [List.mem_filterMap] at hrec
    obtain ⟨q, _, hq⟩ := hrec
    by_cases hc : (jsSplitOnChar q.2 ',').length = (csvHeaders s).length
    · rw [if_pos hc] at hq
      obtain rfl : fixId (assignCells (csvHeaders s) (jsSplitOnChar q.2 ',')) q.1
          = rec := by injection hq
      exact fixId_id_truthy _ q.1
    · rw [if_neg hc] at hq
      exact absurd hq (by simp)

/-- Witness for C10 at a concrete input: the id 0 row and the empty-id
row get synthesized ids `row-2` and `row-3`, the malformed row is
dropped. -/
theorem parseCSV_id_synthesis_witness :
    (∀ rec ∈ parseCSV "id,a\n5,x\n0,y\n,z\nbad", ∃ v,
      objGet rec "id" = some v ∧ jsFalsy v = false) ∧
    (parseCSV "id,a\n5,x\n0,y\n,z\nbad").length = 3 ∧
    objGet ((parseCSV "id,a\n5,x\n0,y\n,z\nbad").getD 1 []) "id"
      = some (CellVal.str "row-2") ∧
    objGet ((parseCSV "id,a\n5,x\n0,y\n,z\nbad").getD 2 []) "id"
      = some (CellVal.str "row-3") :=
  ⟨(parseCSV_id_synthesis "id,a\n5,x\n0,y\n,z\nbad").1, by decide, by decide,
    by decide⟩
